import Mathlib

/-!
Verification of the result-aggregation pipeline of the fuzzy-sku e2e test
suite: the shared result store (`saveTestResult` in
tests/fuzzy-sku-search.spec.ts), the three-tier merge and summary in the
custom reporter (tests/reporters/custom-reporter.ts), the rank-bucket
derivation (`rankRange` in the spec file), the HTML escaping of the report
generator (tests/utils/html-report-generator.ts) and the per-test screenshot
replacement.  TypeScript objects are embedded as Lean structures; JS numbers
that only ever hold integers are embedded as `Int`/`Nat`; optional fields as
`Option`; statuses as the literal strings the code uses.
-/

namespace FuzzySku

/-- A catalog row (`TestCase` in fuzzy-sku-search.spec.ts): the query and the
six expected output fields, all strings parsed from the CSV. -/
structure TestCase where
  aitehinmei : String
  hinban : String
  skname1 : String
  colorcd : String
  colornm : String
  sizecd : String
  sizename : String
deriving DecidableEq, Repr

/-- A saved outcome (`TestResult` in fuzzy-sku-search.spec.ts): the catalog
fields together with the execution status and the derived fields.  `none`
models a JS `undefined` field. -/
structure TestResult where
  aitehinmei : String
  hinban : String
  skname1 : String
  colorcd : String
  colornm : String
  sizecd : String
  sizename : String
  status : String
  error_message : Option String
  found_count : Option Int
  total_count : Option Int
  screenshot_path : Option String
  result_position : Option Int
  result_rank_range : Option String
deriving DecidableEq, Repr

/-- An entry of the shared JSON store: the saved result tagged with its
`_testIndex` (the `resultWithIndex` object of `saveTestResult`). -/
structure StoreRecord where
  testIndex : Nat
  result : TestResult
deriving DecidableEq, Repr

/-- The whitespace characters relevant to JS `String.prototype.trim` /
`parseInt` as they can occur in this pipeline's CSV cells. -/
def isWhitespaceChar (c : Char) : Bool :=
  c == ' ' || c == '\t' || c == '\n' || c == '\r'

/-- JS `String.prototype.trim`: strip leading and trailing whitespace. -/
def jsTrim (s : String) : String :=
  String.mk (((s.data.dropWhile
    isWhitespaceChar).reverse.dropWhile isWhitespaceChar).reverse)

/-- Value of the leading run of decimal digits of a character list, `none`
when there is no leading digit. -/
def leadingDigits (l : List Char) : Option Nat :=
  let ds := l.takeWhile Char.isDigit
  if ds.isEmpty then none
  else some (ds.foldl (fun a c => a * 10 + (c.toNat - 48)) 0)

/-- JS `parseInt(s)` (radix 10): skip whitespace, read an optional sign and
then the leading run of decimal digits.  `none` models the result `NaN`. -/
def parseIntJS (s : String) : Option Int :=
  match (jsTrim s).data with
  | '-' :: rest => (leadingDigits rest).map (fun n => -(n : Int))
  | '+' :: rest => (leadingDigits rest).map (fun n => (n : Int))
  | l => (leadingDigits l).map (fun n => (n : Int))

/-- JS `s || fallback` for strings: the fallback exactly when `s` is empty. -/
def jsOr (s fallback : String) : String := if s = "" then fallback else s

/-- Tier-b numeric-field re-parsing in custom-reporter.ts (lines 167-174 and
186-192): `const v = prev.x && String(prev.x).trim()` followed by
`v ? parseInt(v) : undefined`. -/
def parseNumField (s : String) : Option Int :=
  let t := jsTrim s
  if t = "" then none else parseIntJS t

/-- The decimal digit characters. -/
def digitChar : Nat → Char
  | 0 => '0' | 1 => '1' | 2 => '2' | 3 => '3' | 4 => '4'
  | 5 => '5' | 6 => '6' | 7 => '7' | 8 => '8' | _ => '9'

/-- Most-significant-first decimal digit characters of a natural number. -/
def natDigits (n : Nat) : List Char :=
  if _h : n < 10 then [digitChar n]
  else natDigits (n / 10) ++ [digitChar (n % 10)]
decreasing_by exact Nat.div_lt_self (by omega) (by omega)

/-- Decimal rendering of a natural number (JS `String(n)` for integral `n`). -/
def natSerialize (n : Nat) : String := String.mk (natDigits n)

/-- Decimal rendering of an integer (JS `String(k)` for integral `k`). -/
def intSerialize (k : Int) : String :=
  if k < 0 then "-" ++ natSerialize (-k).toNat else natSerialize k.toNat

/-- How csv-stringify renders an optional numeric field of a row into the
tabular export: `undefined` becomes the empty cell, a number its decimal
rendering. -/
def serializeNumField : Option Int → String
  | none => ""
  | some k => intSerialize k

theorem natDigits_ne_nil (n : Nat) : natDigits n ≠ [] := by
  unfold natDigits
  split <;> simp

theorem digitChar_isDigit {d : Nat} (h : d < 10) : (digitChar d).isDigit = true := by
  revert h
  exact (by decide : ∀ d < 10, (digitChar d).isDigit = true) d

theorem digitChar_val {d : Nat} (h : d < 10) : (digitChar d).toNat - 48 = d := by
  revert h
  exact (by decide : ∀ d < 10, (digitChar d).toNat - 48 = d) d

theorem natDigits_all_digit (n : Nat) : ∀ c ∈ natDigits n, c.isDigit = true := by
  induction n using Nat.strong_induction_on with
  | _ n ih =>
    intro c hc
    unfold natDigits at hc
    split at hc
    · simp only [List.mem_singleton] at hc
      exact hc ▸ digitChar_isDigit (by omega)
    · rcases List.mem_append.mp hc with h1 | h2
      · exact ih (n / 10) (Nat.div_lt_self (by omega) (by omega)) c h1
      · simp only [List.mem_singleton] at h2
        exact h2 ▸ digitChar_isDigit (Nat.mod_lt _ (by omega))

theorem natDigits_foldl (n : Nat) : ∀ a : Nat,
    (natDigits n).foldl (fun a c => a * 10 + (c.toNat - 48)) a =
      a * 10 ^ (natDigits n).length + n := by
  induction n using Nat.strong_induction_on with
  | _ n ih =>
    intro a
    unfold natDigits
    split
    · rename_i h
      simp [List.foldl, digitChar_val h]
    · rename_i h
      rw [List.foldl_append, ih (n / 10) (Nat.div_lt_self (by omega) (by omega)) a]
      simp only [List.foldl, List.length_append, List.length_singleton]
      rw [digitChar_val (Nat.mod_lt _ (by omega))]
      rw [pow_succ]
      have hdm : 10 * (n / 10) + n % 10 = n := Nat.div_add_mod n 10
      ring_nf
      omega

theorem leadingDigits_natDigits (n : Nat) : leadingDigits (natDigits n) = some n := by
  unfold leadingDigits
  rw [List.takeWhile_eq_self_iff.mpr (natDigits_all_digit n)]
  rw [if_neg (by simp [List.isEmpty_iff, natDigits_ne_nil n])]
  rw [natDigits_foldl n 0]
  simp

theorem not_whitespace_of_digit {c : Char} (h : c.isDigit = true) :
    isWhitespaceChar c = false := by
  have h1 : c ≠ ' ' := by rintro rfl; simp [Char.isDigit] at h
  have h2 : c ≠ '\t' := by rintro rfl; simp [Char.isDigit] at h
  have h3 : c ≠ '\n' := by rintro rfl; simp [Char.isDigit] at h
  have h4 : c ≠ '\r' := by rintro rfl; simp [Char.isDigit] at h
  simp [isWhitespaceChar, h1, h2, h3, h4]

theorem dropWhile_eq_self_of_forall {α} (p : α → Bool) {l : List α}
    (h : ∀ c ∈ l, p c = false) : l.dropWhile p = l := by
  cases l with
  | nil => rfl
  | cons c cs => rw [List.dropWhile_cons, if_neg (by simp [h c (by simp)])]

theorem jsTrim_eq_self {l : List Char}
    (h : ∀ c ∈ l, isWhitespaceChar c = false) :
    jsTrim (String.mk l) = String.mk l := by
  unfold jsTrim
  rw [show (String.mk l).data = l from rfl]
  rw [dropWhile_eq_self_of_forall _ h]
  rw [dropWhile_eq_self_of_forall _ (fun c hc => h c (List.mem_reverse.mp hc))]
  rw [List.reverse_reverse]

theorem parseIntJS_natSerialize (n : Nat) :
    parseIntJS (natSerialize n) = some (n : Int) := by
  unfold parseIntJS natSerialize
  rw [jsTrim_eq_self (fun c hc => not_whitespace_of_digit (natDigits_all_digit n c hc))]
  rw [show (String.mk (natDigits n)).data = natDigits n from rfl]
  obtain ⟨d, ds, hds⟩ := List.exists_cons_of_ne_nil (natDigits_ne_nil n)
  have hd : d.isDigit = true := natDigits_all_digit n d (by rw [hds]; simp)
  have hdm : d ≠ '-' := by rintro rfl; simp [Char.isDigit] at hd
  have hdp : d ≠ '+' := by rintro rfl; simp [Char.isDigit] at hd
  rw [hds]
  split
  · rename_i heq
    exact absurd (by injection heq) (fun h : d = '-' => hdm h)
  · rename_i heq
    exact absurd (by injection heq) (fun h : d = '+' => hdp h)
  · rw [← hds, leadingDigits_natDigits n]
    rfl

/--
Rank-bucket derivation from fuzzy-sku-search.spec.ts (lines 322-338):

  let rankRange = 'Not Found';
  if (resultPosition > 0) {
    if (resultPosition <= 5) { rankRange = 'Top 1-5'; }
    else if (resultPosition <= 10) { rankRange = 'Top 6-10'; }
    else if (resultPosition <= 20) { rankRange = 'Top 11-20'; }
    else if (resultPosition <= 30) { rankRange = 'Top 21-30'; }
    else if (resultPosition <= 50) { rankRange = 'Top 31-50'; }
    else { rankRange = `Below Top 50 (Position \x7bresultPosition\x7d)`; }
  }

`resultPosition` is `-1` when the expected item was absent from the result
list (the code's sentinel for an absent match position) and `i + 1 >= 1`
otherwise. -/
def rankRange (resultPosition : Int) : String :=
  if resultPosition > 0 then
    if resultPosition ≤ 5 then "Top 1-5"
    else if resultPosition ≤ 10 then "Top 6-10"
    else if resultPosition ≤ 20 then "Top 11-20"
    else if resultPosition ≤ 30 then "Top 21-30"
    else if resultPosition ≤ 50 then "Top 31-50"
    else "Below Top 50 (Position " ++ toString resultPosition ++ ")"
  else "Not Found"

/-- Claim C6: the rank-bucket derivation maps a match position `p` to exactly:
absent `p` (the non-positive sentinel) to "Not Found"; `1 ≤ p ≤ 5` to
"Top 1-5"; `6 ≤ p ≤ 10` to "Top 6-10"; `11 ≤ p ≤ 20` to "Top 11-20";
`21 ≤ p ≤ 30` to "Top 21-30"; `31 ≤ p ≤ 50` to "Top 31-50"; `p > 50` to
"Below Top 50 (Position p)"; in particular position 5 yields "Top 1-5",
position 6 yields "Top 6-10" and position 51 yields
"Below Top 50 (Position 51)". -/
theorem claim_C6_rank_bucket :
    (∀ p : Int,
      (p ≤ 0 → rankRange p = "Not Found") ∧
      (1 ≤ p ∧ p ≤ 5 → rankRange p = "Top 1-5") ∧
      (6 ≤ p ∧ p ≤ 10 → rankRange p = "Top 6-10") ∧
      (11 ≤ p ∧ p ≤ 20 → rankRange p = "Top 11-20") ∧
      (21 ≤ p ∧ p ≤ 30 → rankRange p = "Top 21-30") ∧
      (31 ≤ p ∧ p ≤ 50 → rankRange p = "Top 31-50") ∧
      (50 < p → rankRange p = "Below Top 50 (Position " ++ toString p ++ ")")) ∧
    rankRange 5 = "Top 1-5" ∧ rankRange 6 = "Top 6-10" ∧
    rankRange 51 = "Below Top 50 (Position 51)" := by
  refine ⟨fun p => ?_, by decide, by decide, by decide⟩
  unfold rankRange
  refine ⟨?_, ?_, ?_, ?_, ?_, ?_, ?_⟩ <;> intro h <;>
    split_ifs <;> first | rfl | omega

/-- Concrete instantiation of `claim_C6_rank_bucket`. -/
theorem claim_C6_rank_bucket_witness :
    rankRange (-1) = "Not Found" ∧ rankRange 12 = "Top 11-20" :=
  ⟨(claim_C6_rank_bucket.1 (-1)).1 (by decide),
   (claim_C6_rank_bucket.1 12).2.2.2.1 (by decide)⟩

/-- A row of the previous run's tabular export, as re-parsed by csv-parse with
`columns: true, trim: true` in custom-reporter.ts (lines 111-127): every cell
is a string.  Only the columns the merge reads are modelled. -/
structure PrevRow where
  test_number : String
  status : String
  found_count : String
  total_count : String
  result_position : String
  error_message : String
  screenshot_path : String
  result_rank_range : String
deriving DecidableEq, Repr

/-- The `previousResults` map of custom-reporter.ts (lines 110-127): each
parsed row is keyed by `parseInt(r.test_number)` when that is not `NaN`;
a later row with the same key overwrites an earlier one. -/
def buildPrevMap (rows : List PrevRow) : Int → Option PrevRow :=
  rows.foldl (fun m r =>
    match parseIntJS r.test_number with
    | some k => Function.update m k (some r)
    | none => m) (fun _ => none)

/-- A merged report row (an entry of `this.testResults` in
custom-reporter.ts). -/
structure MergedRow where
  test_number : Nat
  status : String
  aitehinmei : String
  hinban : String
  skname1 : String
  colorcd : String
  colornm : String
  sizecd : String
  sizename : String
  found_count : Option Int
  total_count : Option Int
  error_message : Option String
  screenshot_path : Option String
  result_position : Option Int
  result_rank_range : Option String
deriving DecidableEq, Repr

/-- Tier (a) of the merge (custom-reporter.ts lines 152-161): spread the
current-run store record, `_testIndex` removed, after `test_number`. -/
def rowOfRecord (testNumber : Nat) (r : TestResult) : MergedRow :=
  { test_number := testNumber
    status := r.status
    aitehinmei := r.aitehinmei
    hinban := r.hinban
    skname1 := r.skname1
    colorcd := r.colorcd
    colornm := r.colornm
    sizecd := r.sizecd
    sizename := r.sizename
    found_count := r.found_count
    total_count := r.total_count
    error_message := r.error_message
    screenshot_path := r.screenshot_path
    result_position := r.result_position
    result_rank_range := r.result_rank_range }

/-- Tier (b) of the merge (custom-reporter.ts lines 163-195): keep the
previous row's status and derived fields, re-parsing the numeric cells, and
take the catalog fields from the current catalog row `tc`. -/
def rowOfPrev (testNumber : Nat) (tc : TestCase) (previousRun : PrevRow) : MergedRow :=
  { test_number := testNumber
    status := previousRun.status
    aitehinmei := tc.aitehinmei
    hinban := tc.hinban
    skname1 := tc.skname1
    colorcd := tc.colorcd
    colornm := tc.colornm
    sizecd := tc.sizecd
    sizename := tc.sizename
    found_count := parseNumField previousRun.found_count
    total_count := parseNumField previousRun.total_count
    error_message := some (jsOr previousRun.error_message "")
    screenshot_path := some (jsOr previousRun.screenshot_path "")
    result_position := parseNumField previousRun.result_position
    result_rank_range := some (jsOr previousRun.result_rank_range "") }

/-- Tier (c) of the merge (custom-reporter.ts lines 197-208): a default
`NOT_RUN` row built from the catalog row only; every derived field is
`undefined`. -/
def defaultRow (testNumber : Nat) (tc : TestCase) : MergedRow :=
  { test_number := testNumber
    status := "NOT_RUN"
    aitehinmei := tc.aitehinmei
    hinban := tc.hinban
    skname1 := tc.skname1
    colorcd := tc.colorcd
    colornm := tc.colornm
    sizecd := tc.sizecd
    sizename := tc.sizename
    found_count := none
    total_count := none
    error_message := none
    screenshot_path := none
    result_position := none
    result_rank_range := none }

/-- The per-index body of the merge (custom-reporter.ts lines 149-209):
current run beats previous export beats catalog default. -/
def mergeRow (allResults : List StoreRecord)
    (previousResults : Int → Option PrevRow) (idx : Nat) (tc : TestCase) :
    MergedRow :=
  let testNumber := idx + 1
  match allResults.find? (fun r => r.testIndex == idx) with
  | some currentRun => rowOfRecord testNumber currentRun.result
  | none =>
    match previousResults (testNumber : Int) with
    | some previousRun => rowOfPrev testNumber tc previousRun
    | none => defaultRow testNumber tc

/-- `merge(catalog, storeRecords, previousExport)`: the `testCases.map`
of custom-reporter.ts lines 148-209. -/
def merge (testCases : List TestCase) (allResults : List StoreRecord)
    (previousResults : List PrevRow) : List MergedRow :=
  testCases.mapIdx fun idx tc =>
    mergeRow allResults (buildPrevMap previousResults) idx tc

theorem mergeRow_test_number (allResults : List StoreRecord)
    (pm : Int → Option PrevRow) (idx : Nat) (tc : TestCase) :
    (mergeRow allResults pm idx tc).test_number = idx + 1 := by
  unfold mergeRow
  dsimp only
  cases allResults.find? (fun r => r.testIndex == idx) with
  | some r => rfl
  | none =>
    cases pm ((idx + 1 : Nat) : Int) with
    | some p => rfl
    | none => rfl

theorem merge_get (testCases : List TestCase) (allResults : List StoreRecord)
    (previousResults : List PrevRow) (i : Nat) (hc : i < testCases.length)
    (h : i < (merge testCases allResults previousResults).length) :
    (merge testCases allResults previousResults).get ⟨i, h⟩ =
      mergeRow allResults (buildPrevMap previousResults) i
        (testCases.get ⟨i, hc⟩) :=
  List.get_mapIdx testCases _ i hc h

/-- Claim C1: for every catalog of size n, every list of current-run store
records and every previous export, `merge` returns exactly n merged rows,
one for each catalog index 0..n-1 in ascending index order (the row at
position i carries test_number i+1), with no duplicate and no missing
index. -/
theorem claim_C1_merge_shape (testCases : List TestCase)
    (allResults : List StoreRecord) (previousResults : List PrevRow) :
    (merge testCases allResults previousResults).length = testCases.length ∧
    ∀ i (h : i < (merge testCases allResults previousResults).length),
      ((merge testCases allResults previousResults).get ⟨i, h⟩).test_number =
        i + 1 := by
  refine ⟨by simp [merge], fun i h => ?_⟩
  have hc : i < testCases.length := by simpa [merge] using h
  rw [merge_get testCases allResults previousResults i hc h]
  exact mergeRow_test_number ..

/-- Concrete instantiation of `claim_C1_merge_shape`. -/
theorem claim_C1_merge_shape_witness :
    (merge [⟨"q", "h1", "sk", "cc", "cn", "sc", "sn"⟩] [] []).length = 1 ∧
    ((merge [⟨"q", "h1", "sk", "cc", "cn", "sc", "sn"⟩] [] []).get
        ⟨0, by decide⟩).test_number = 0 + 1 :=
  ⟨by
    have h := (claim_C1_merge_shape
      [⟨"q", "h1", "sk", "cc", "cn", "sc", "sn"⟩] [] []).1
    simpa using h,
   (claim_C1_merge_shape [⟨"q", "h1", "sk", "cc", "cn", "sc", "sn"⟩] [] []).2
     0 (by decide)⟩

/-- Claim C2: if the current run's store records contain an entry for index
i, the merged row for i equals that entry verbatim (the record's result
behind test_number i+1) — whatever its status and whatever the previous
export holds — and the previous export is never consulted for such an
index (the merged row is the same for any two previous exports). -/
theorem claim_C2_current_run_wins (allResults : List StoreRecord)
    (prevA prevB : List PrevRow) (idx : Nat) (tc : TestCase)
    (rec : StoreRecord)
    (hfind : allResults.find? (fun r => r.testIndex == idx) = some rec) :
    mergeRow allResults (buildPrevMap prevA) idx tc =
      rowOfRecord (idx + 1) rec.result ∧
    mergeRow allResults (buildPrevMap prevA) idx tc =
      mergeRow allResults (buildPrevMap prevB) idx tc := by
  unfold mergeRow
  rw [hfind]
  exact ⟨rfl, rfl⟩

/-- A sample catalog row. -/
def tcEx : TestCase := ⟨"q", "h1", "sk", "cc", "cn", "sc", "sn"⟩

/-- A second sample catalog row. -/
def tcEx2 : TestCase := ⟨"q2", "h2", "sk2", "cc2", "cn2", "sc2", "sn2"⟩

/-- A sample saved outcome whose status is NOT_RUN. -/
def resExNotRun : TestResult :=
  ⟨"q2", "h2", "sk2", "cc2", "cn2", "sc2", "sn2", "NOT_RUN",
   none, none, none, none, none, none⟩

/-- A sample previous-export row recording a PASS for test_number 2. -/
def prevRowEx : PrevRow := ⟨"2", "PASS", "6", "6", "1", "", "", "Top 1-5"⟩

/-- Concrete instantiation of `claim_C2_current_run_wins`: a current-run
NOT_RUN record for index 1 beats a previous-export PASS row for test_number
2, and dropping the previous export does not change the merged row. -/
theorem claim_C2_current_run_wins_witness :
    mergeRow [⟨1, resExNotRun⟩] (buildPrevMap [prevRowEx]) 1 tcEx =
      rowOfRecord 2 resExNotRun ∧
    mergeRow [⟨1, resExNotRun⟩] (buildPrevMap [prevRowEx]) 1 tcEx =
      mergeRow [⟨1, resExNotRun⟩] (buildPrevMap []) 1 tcEx :=
  claim_C2_current_run_wins [⟨1, resExNotRun⟩] [prevRowEx] [] 1 tcEx
    ⟨1, resExNotRun⟩ (by decide)

theorem parseIntJS_intSerialize (k : Int) :
    parseIntJS (intSerialize k) = some k := by
  unfold intSerialize
  split
  · rename_i hneg
    have hall : ∀ c ∈ ('-' :: natDigits (-k).toNat),
        isWhitespaceChar c = false := by
      intro c hc
      rcases List.mem_cons.mp hc with rfl | hc
      · decide
      · exact not_whitespace_of_digit (natDigits_all_digit _ c hc)
    have hs : ("-" ++ natSerialize (-k).toNat) =
        String.mk ('-' :: natDigits (-k).toNat) := rfl
    unfold parseIntJS
    rw [hs, jsTrim_eq_self hall]
    show (leadingDigits (natDigits (-k).toNat)).map (fun n => -(n : Int)) =
      some k
    rw [leadingDigits_natDigits]
    show some (-(((-k).toNat : Nat) : Int)) = some k
    congr 1
    omega
  · rw [parseIntJS_natSerialize]
    congr 1
    omega

theorem parseNumField_serializeNumField (v : Option Int) :
    parseNumField (serializeNumField v) = v := by
  cases v with
  | none => rfl
  | some k =>
    show parseNumField (intSerialize k) = some k
    unfold parseNumField
    dsimp only
    have htrim : jsTrim (intSerialize k) = intSerialize k := by
      unfold intSerialize
      split
      · exact jsTrim_eq_self (by
          intro c hc
          rcases List.mem_cons.mp hc with rfl | hc
          · decide
          · exact not_whitespace_of_digit (natDigits_all_digit _ c hc))
      · exact jsTrim_eq_self (fun c hc =>
          not_whitespace_of_digit (natDigits_all_digit _ c hc))
    rw [htrim]
    have hne : intSerialize k ≠ "" := by
      unfold intSerialize
      split
      · intro h
        have : ("-" ++ natSerialize (-k).toNat).data = "".data :=
          congrArg String.data h
        simp at this
      · intro h
        have : (natSerialize k.toNat).data = "".data :=
          congrArg String.data h
        exact natDigits_ne_nil k.toNat (by simpa [natSerialize] using this)
    rw [if_neg hne]
    exact parseIntJS_intSerialize k

/-- Claim C3: for every index with no current-run store entry: if the
previous export contains a row keyed by its test number i+1, the merged row
reuses that row's status and derived fields, with the numeric cells (found
count, total count, match position) re-parsed from their text serialization
back to the original integers; otherwise the merged row is the default row
with status NOT_RUN and every derived field empty. -/
theorem claim_C3_fallback (allResults : List StoreRecord)
    (prevRows : List PrevRow) (idx : Nat) (tc : TestCase)
    (hfind : allResults.find? (fun r => r.testIndex == idx) = none) :
    (∀ (previousRun : PrevRow) (fc tcnt rp : Option Int),
      buildPrevMap prevRows ((idx + 1 : Nat) : Int) = some previousRun →
      previousRun.found_count = serializeNumField fc →
      previousRun.total_count = serializeNumField tcnt →
      previousRun.result_position = serializeNumField rp →
      mergeRow allResults (buildPrevMap prevRows) idx tc =
        { test_number := idx + 1
          status := previousRun.status
          aitehinmei := tc.aitehinmei
          hinban := tc.hinban
          skname1 := tc.skname1
          colorcd := tc.colorcd
          colornm := tc.colornm
          sizecd := tc.sizecd
          sizename := tc.sizename
          found_count := fc
          total_count := tcnt
          error_message := some (jsOr previousRun.error_message "")
          screenshot_path := some (jsOr previousRun.screenshot_path "")
          result_position := rp
          result_rank_range := some (jsOr previousRun.result_rank_range "") }) ∧
    (buildPrevMap prevRows ((idx + 1 : Nat) : Int) = none →
      mergeRow allResults (buildPrevMap prevRows) idx tc =
        defaultRow (idx + 1) tc ∧
      (defaultRow (idx + 1) tc).status = "NOT_RUN" ∧
      (defaultRow (idx + 1) tc).found_count = none ∧
      (defaultRow (idx + 1) tc).total_count = none ∧
      (defaultRow (idx + 1) tc).result_position = none ∧
      (defaultRow (idx + 1) tc).error_message = none ∧
      (defaultRow (idx + 1) tc).screenshot_path = none ∧
      (defaultRow (idx + 1) tc).result_rank_range = none) := by
  constructor
  · intro previousRun fc tcnt rp hprev hfc htc hrp
    unfold mergeRow
    dsimp only
    rw [hfind, hprev]
    show rowOfPrev (idx + 1) tc previousRun = _
    unfold rowOfPrev
    rw [hfc, htc, hrp, parseNumField_serializeNumField,
        parseNumField_serializeNumField, parseNumField_serializeNumField]
  · intro hprev
    unfold mergeRow
    dsimp only
    rw [hfind, hprev]
    exact ⟨rfl, rfl, rfl, rfl, rfl, rfl, rfl, rfl⟩

/-- Concrete instantiation of `claim_C3_fallback`: tier (b) with the sample
previous row (numeric cells "6", "6", "1") and tier (c) at an index the
previous export does not cover. -/
theorem claim_C3_fallback_witness :
    mergeRow [] (buildPrevMap [prevRowEx]) 1 tcEx =
      { test_number := 2
        status := "PASS"
        aitehinmei := "q"
        hinban := "h1"
        skname1 := "sk"
        colorcd := "cc"
        colornm := "cn"
        sizecd := "sc"
        sizename := "sn"
        found_count := some 6
        total_count := some 6
        error_message := some ""
        screenshot_path := some ""
        result_position := some 1
        result_rank_range := some "Top 1-5" } ∧
    mergeRow [] (buildPrevMap [prevRowEx]) 5 tcEx = defaultRow 6 tcEx := by
  constructor
  · have h := (claim_C3_fallback [] [prevRowEx] 1 tcEx rfl).1 prevRowEx
      (some 6) (some 6) (some 1) (by decide)
      (by simp [prevRowEx, serializeNumField, intSerialize, natSerialize,
                natDigits, digitChar])
      (by simp [prevRowEx, serializeNumField, intSerialize, natSerialize,
                natDigits, digitChar])
      (by simp [prevRowEx, serializeNumField, intSerialize, natSerialize,
                natDigits, digitChar])
    simpa [prevRowEx, tcEx, jsOr] using h
  · exact ((claim_C3_fallback [] [prevRowEx] 5 tcEx rfl).2 (by decide)).1

/-- Claim C10: a tier-b or tier-c merged row takes its query and
expected-field values from the current catalog entry at that index, never
from the previous export, while a tier-a row reproduces the current-run
store record verbatim, including the catalog fields saved with it; hence
editing the catalog between runs changes the catalog fields of tier-b rows
while their statuses stay historical (the status is the same for any two
catalog rows). -/
theorem claim_C10_catalog_fields (allResults : List StoreRecord)
    (prevRows : List PrevRow) (idx : Nat) (tc tcB : TestCase) :
    (∀ rec : StoreRecord,
      allResults.find? (fun r => r.testIndex == idx) = some rec →
      mergeRow allResults (buildPrevMap prevRows) idx tc =
        rowOfRecord (idx + 1) rec.result ∧
      (mergeRow allResults (buildPrevMap prevRows) idx tc).aitehinmei =
        rec.result.aitehinmei) ∧
    (allResults.find? (fun r => r.testIndex == idx) = none →
      ((mergeRow allResults (buildPrevMap prevRows) idx tc).aitehinmei =
          tc.aitehinmei ∧
       (mergeRow allResults (buildPrevMap prevRows) idx tc).hinban =
          tc.hinban ∧
       (mergeRow allResults (buildPrevMap prevRows) idx tc).skname1 =
          tc.skname1 ∧
       (mergeRow allResults (buildPrevMap prevRows) idx tc).colorcd =
          tc.colorcd ∧
       (mergeRow allResults (buildPrevMap prevRows) idx tc).colornm =
          tc.colornm ∧
       (mergeRow allResults (buildPrevMap prevRows) idx tc).sizecd =
          tc.sizecd ∧
       (mergeRow allResults (buildPrevMap prevRows) idx tc).sizename =
          tc.sizename) ∧
      (mergeRow allResults (buildPrevMap prevRows) idx tc).status =
        (mergeRow allResults (buildPrevMap prevRows) idx tcB).status) := by
  constructor
  · intro rec hfind
    unfold mergeRow
    rw [hfind]
    exact ⟨rfl, rfl⟩
  · intro hfind
    unfold mergeRow
    dsimp only
    rw [hfind]
    cases hp : buildPrevMap prevRows ((idx + 1 : Nat) : Int) with
    | some previousRun =>
      exact ⟨⟨rfl, rfl, rfl, rfl, rfl, rfl, rfl⟩, rfl⟩
    | none =>
      exact ⟨⟨rfl, rfl, rfl, rfl, rfl, rfl, rfl⟩, rfl⟩

/-- Concrete instantiation of `claim_C10_catalog_fields`: a tier-b row built
against catalog row `tcEx` carries the fields of `tcEx` while its status
matches the one built against `tcEx2`. -/
theorem claim_C10_catalog_fields_witness :
    ((mergeRow [] (buildPrevMap [prevRowEx]) 1 tcEx).aitehinmei =
        tcEx.aitehinmei ∧
     (mergeRow [] (buildPrevMap [prevRowEx]) 1 tcEx).hinban = tcEx.hinban ∧
     (mergeRow [] (buildPrevMap [prevRowEx]) 1 tcEx).skname1 = tcEx.skname1 ∧
     (mergeRow [] (buildPrevMap [prevRowEx]) 1 tcEx).colorcd = tcEx.colorcd ∧
     (mergeRow [] (buildPrevMap [prevRowEx]) 1 tcEx).colornm = tcEx.colornm ∧
     (mergeRow [] (buildPrevMap [prevRowEx]) 1 tcEx).sizecd = tcEx.sizecd ∧
     (mergeRow [] (buildPrevMap [prevRowEx]) 1 tcEx).sizename =
        tcEx.sizename) ∧
    (mergeRow [] (buildPrevMap [prevRowEx]) 1 tcEx).status =
      (mergeRow [] (buildPrevMap [prevRowEx]) 1 tcEx2).status :=
  (claim_C10_catalog_fields [] [prevRowEx] 1 tcEx tcEx2).2 rfl

/-- The suite success threshold (custom-reporter.ts line 14). -/
def SUCCESS_THRESHOLD : ℚ := 90

/-- Rounding of a non-negative rational to one decimal place, half up: the
value of JS `parseFloat(x.toFixed(1))` for the pass rates this pipeline
produces. -/
def toFixed1 (x : ℚ) : ℚ := (⌊x * 10 + 1 / 2⌋ : ℚ) / 10

/-- The summary of custom-reporter.ts (lines 227-336). -/
structure Summary where
  totalTests : Nat
  passCount : Nat
  failCount : Nat
  notRunCount : Nat
  passRate : ℚ
  requiredPasses : Int
  suiteStatus : String
deriving DecidableEq, Repr

/-- The summary computation of custom-reporter.ts (lines 227-336): counts by
status; `passRate` is `parseFloat(((passCount / total) * 100).toFixed(1))`
with the string '0.0' when the total is zero; `overallSuccess` compares that
ROUNDED rate against the threshold; `requiredPasses` is
`Math.ceil((threshold / 100) * totalTests)`.  The reporter instantiates
`threshold` with the constant `SUCCESS_THRESHOLD`. -/
def summarize (rows : List MergedRow) (threshold : ℚ) : Summary :=
  let totalTests := rows.length
  let passCount := (rows.filter (fun r => r.status == "PASS")).length
  let failCount := (rows.filter (fun r => r.status == "FAIL")).length
  let notRunCount := (rows.filter (fun r => r.status == "NOT_RUN")).length
  let passRateNum : ℚ :=
    if 0 < totalTests then toFixed1 ((passCount : ℚ) / (totalTests : ℚ) * 100)
    else 0
  let overallSuccess := threshold ≤ passRateNum
  let requiredPasses : Int := ⌈threshold / 100 * (totalTests : ℚ)⌉
  { totalTests := totalTests
    passCount := passCount
    failCount := failCount
    notRunCount := notRunCount
    passRate := passRateNum
    requiredPasses := requiredPasses
    suiteStatus := if overallSuccess then "PASSED" else "FAILED" }

/-- The exact, unrounded pass rate `passCount / total * 100` (0 when
`total = 0`) that the specification's summary contract refers to. -/
def exactPassRate (rows : List MergedRow) : ℚ :=
  if 0 < rows.length then
    (((rows.filter (fun r => r.status == "PASS")).length : ℚ) /
      (rows.length : ℚ)) * 100
  else 0

/-- A sample merged row with status PASS. -/
def passRowEx : MergedRow := { defaultRow 1 tcEx with status := "PASS" }

/-- A sample merged row with status FAIL. -/
def failRowEx : MergedRow := { defaultRow 1 tcEx with status := "FAIL" }

/-- 209 merged rows of which 188 pass: the exact pass rate is
18800/209 ≈ 89.952 %. -/
def rows209 : List MergedRow :=
  List.replicate 188 passRowEx ++ List.replicate 21 failRowEx

theorem filter_replicate_list {α} (n : Nat) (a : α) (p : α → Bool) :
    (List.replicate n a).filter p =
      if p a then List.replicate n a else [] := by
  induction n with
  | zero => simp
  | succ n ih =>
    rw [List.replicate_succ, List.filter_cons]
    cases hp : p a
    · simp only [ih, hp, Bool.false_eq_true, if_false]
    · simp only [ih, hp, if_true, List.replicate_succ]

theorem rows209_pass_filter :
    rows209.filter (fun r => r.status == "PASS") =
      List.replicate 188 passRowEx := by
  show (List.replicate 188 passRowEx ++
    List.replicate 21 failRowEx).filter (fun r => r.status == "PASS") = _
  rw [List.filter_append, filter_replicate_list, filter_replicate_list]
  rw [if_pos (by rfl), if_neg (by simp [failRowEx, defaultRow])]
  simp

theorem rows209_length : rows209.length = 209 := by
  show (List.replicate 188 passRowEx ++ List.replicate 21 failRowEx).length = _
  rw [List.length_append, List.length_replicate, List.length_replicate]

theorem summarize_suiteStatus (rows : List MergedRow) (threshold : ℚ) :
    (summarize rows threshold).suiteStatus =
      if threshold ≤ (summarize rows threshold).passRate then "PASSED"
      else "FAILED" := rfl

theorem toFixed1_rate209 : toFixed1 ((188 : ℚ) / (209 : ℚ) * 100) = 90 := by
  unfold toFixed1
  have h1 : (188 : ℚ) / (209 : ℚ) * 100 * 10 + 1 / 2 = 376209 / 418 := by
    norm_num
  have h2 : (⌊(376209 / 418 : ℚ)⌋ : Int) = 900 := by
    rw [Int.floor_eq_iff]
    norm_num
  rw [h1, h2]
  norm_num

/-- Counterexample to claim C4 as stated: with 188 of 209 rows passing at
threshold 90, the exact pass rate 18800/209 < 90 and the pass count 188 is
exactly one below requiredPasses = 189, yet the suite is PASSED — the code
rounds the rate to one decimal (89.952 → 90.0) before comparing it with the
threshold, so the reported passRate is 90 and not passCount/total*100. -/
theorem claim_C4_counterexample :
    (summarize rows209 SUCCESS_THRESHOLD).suiteStatus = "PASSED" ∧
    exactPassRate rows209 < SUCCESS_THRESHOLD ∧
    (summarize rows209 SUCCESS_THRESHOLD).passCount = 188 ∧
    (summarize rows209 SUCCESS_THRESHOLD).requiredPasses = 189 ∧
    (summarize rows209 SUCCESS_THRESHOLD).passRate ≠ exactPassRate rows209 := by
  have hx : exactPassRate rows209 = (188 : ℚ) / (209 : ℚ) * 100 := by
    unfold exactPassRate
    rw [rows209_pass_filter, rows209_length, List.length_replicate]
    rw [if_pos (by norm_num)]
    norm_num
  have hrate : (summarize rows209 SUCCESS_THRESHOLD).passRate = 90 := by
    unfold summarize
    dsimp only
    rw [rows209_pass_filter, rows209_length, List.length_replicate]
    rw [if_pos (by norm_num)]
    rw [show ((188 : Nat) : ℚ) / ((209 : Nat) : ℚ) * 100 =
      (188 : ℚ) / (209 : ℚ) * 100 by norm_num]
    exact toFixed1_rate209
  refine ⟨?_, ?_, ?_, ?_, ?_⟩
  · rw [summarize_suiteStatus, hrate]
    rw [if_pos (by norm_num [SUCCESS_THRESHOLD])]
  · rw [hx]
    norm_num [SUCCESS_THRESHOLD]
  · show (rows209.filter (fun r => r.status == "PASS")).length = 188
    rw [rows209_pass_filter, List.length_replicate]
  · show (⌈SUCCESS_THRESHOLD / 100 * (rows209.length : ℚ)⌉ : Int) = 189
    rw [rows209_length]
    rw [Int.ceil_eq_iff]
    norm_num [SUCCESS_THRESHOLD]
  · rw [hrate, hx]
    norm_num

/-- Claim C4 amended: `summarize` computes its passRate as the one-decimal
half-up rounding of passCount / total * 100 (0 when total = 0) and
requiredPasses = ceil(threshold/100 * total), and suiteStatus is PASSED if
and only if that ROUNDED pass rate is at least the threshold; the boundary
stays inclusive for the integer thresholds the configuration surface allows:
an exact pass rate equal to such a threshold yields PASSED. -/
theorem claim_C4_summary (rows : List MergedRow) (threshold : ℚ) :
    (summarize rows threshold).passRate = toFixed1 (exactPassRate rows) ∧
    (summarize rows threshold).requiredPasses =
      ⌈threshold / 100 * (rows.length : ℚ)⌉ ∧
    ((summarize rows threshold).suiteStatus = "PASSED" ↔
      threshold ≤ toFixed1 (exactPassRate rows)) ∧
    (∀ n : Int, threshold = (n : ℚ) → exactPassRate rows = threshold →
      (summarize rows threshold).suiteStatus = "PASSED") := by
  have hhalf : (⌊(1 / 2 : ℚ)⌋ : Int) = 0 := by
    rw [Int.floor_eq_iff]
    norm_num
  have hfix0 : toFixed1 0 = 0 := by
    unfold toFixed1
    rw [zero_mul, zero_add, hhalf]
    norm_num
  have hrate : (summarize rows threshold).passRate =
      toFixed1 (exactPassRate rows) := by
    unfold summarize exactPassRate
    dsimp only
    by_cases h : 0 < rows.length
    · rw [if_pos h, if_pos h]
    · rw [if_neg h, if_neg h, hfix0]
  have hstat : (summarize rows threshold).suiteStatus =
      if threshold ≤ toFixed1 (exactPassRate rows) then "PASSED"
      else "FAILED" := by
    unfold summarize exactPassRate
    dsimp only
    by_cases h : 0 < rows.length
    · rw [if_pos h, if_pos h]
    · rw [if_neg h, if_neg h, hfix0]
  refine ⟨hrate, rfl, ?_, ?_⟩
  · rw [hstat]
    by_cases h : threshold ≤ toFixed1 (exactPassRate rows)
    · rw [if_pos h]
      exact iff_of_true rfl h
    · rw [if_neg h]
      exact iff_of_false (by decide) h
  · intro n hn hx
    have hfl : toFixed1 (n : ℚ) = (n : ℚ) := by
      unfold toFixed1
      have h10 : ((n : ℚ) * 10 + 1 / 2) = 1 / 2 + ((10 * n : Int) : ℚ) := by
        push_cast
        ring
      rw [h10, Int.floor_add_int, hhalf, zero_add]
      push_cast
      ring
    rw [hstat, hx, hn, hfl, if_pos le_rfl]

/-- Concrete instantiation of `claim_C4_summary`: a single passing row at the
integer threshold 100 — the exact pass rate equals the threshold and the
suite is PASSED. -/
theorem claim_C4_summary_witness :
    exactPassRate [passRowEx] = (100 : ℚ) ∧
    (summarize [passRowEx] 100).suiteStatus = "PASSED" :=
  have hx : exactPassRate [passRowEx] = (100 : ℚ) := by
    unfold exactPassRate
    rw [show List.filter (fun r => r.status == "PASS") [passRowEx] =
      [passRowEx] from rfl]
    norm_num
  ⟨hx, (claim_C4_summary [passRowEx] 100).2.2.2 100 (by norm_num) hx⟩

/-- The state of the shared results file `.test-results-shared.json`:
absent, unparsable JSON, parsable JSON that is not an array, or a parsed
array of store records.  A blank file behaves like `missing`. -/
inductive FileState
  | missing
  | corrupt
  | notArray
  | valid (rs : List StoreRecord)
deriving DecidableEq, Repr

/-- Reading the shared file at the top of a `saveTestResult` attempt
(fuzzy-sku-search.spec.ts lines 100-120): a missing or blank file leaves
`allResults` empty; parsable-but-not-an-array JSON resets it to empty with
a warning; unparsable JSON throws inside `JSON.parse` (the `.error` case,
handled by the surrounding try/catch). -/
def readSnapshot : FileState → Except Unit (List StoreRecord)
  | .missing => .ok []
  | .corrupt => .error ()
  | .notArray => .ok []
  | .valid rs => .ok rs

/-- The upsert of fuzzy-sku-search.spec.ts lines 122-132: replace the first
record with `_testIndex === index` (`allResults[existingIndex] = ...`), or
push the tagged record at the end. -/
def upsertRecord (index : Nat) (result : TestResult) :
    List StoreRecord → List StoreRecord
  | [] => [⟨index, result⟩]
  | r :: rs =>
    if r.testIndex = index then ⟨index, result⟩ :: rs
    else r :: upsertRecord index result rs

/-- `maxRetries` of `saveTestResult` (fuzzy-sku-search.spec.ts line 85). -/
def maxRetries : Nat := 5

/-- The retry loop of `saveTestResult` run against a quiescent file (no
concurrent writer), by recursion on the remaining attempts: a successful
parse (or a missing / blank / non-array file) leads directly to the upsert
and the atomic write; a parse error `continue`s while attempts remain and
on the last attempt resets the snapshot to `[]` (lines 104-118).  Returns
whether a write happened, the attempts used, and the final file state. -/
def saveLoop (index : Nat) (result : TestResult) :
    Nat → Nat → FileState → Bool × Nat × FileState
  | 0, attempt, f => (false, attempt, f)
  | remaining + 1, attempt, f =>
    match readSnapshot f with
    | .ok allResults =>
      (true, attempt + 1, .valid (upsertRecord index result allResults))
    | .error _ =>
      if remaining = 0 then
        (true, attempt + 1, .valid (upsertRecord index result []))
      else saveLoop index result remaining (attempt + 1) f

/-- `saveTestResult(index, result)` (fuzzy-sku-search.spec.ts lines 84-149)
against a quiescent backing file. -/
def saveTestResult (index : Nat) (result : TestResult) (f : FileState) :
    Bool × Nat × FileState :=
  saveLoop index result maxRetries 0 f

/-- Claim C5: `saveTestResult` never throws, for any submitted outcome and
any state of the backing file: it is total and always returns (modelled by
the write flag and attempt count it yields), uses at most `maxRetries = 5`
attempts, and when the backing snapshot is unparsable it treats the store
as empty rather than raising, so a submit against a corrupt backing file
returns normally (after exhausting all 5 attempts) and leaves the submitted
outcome as the sole content of the store. -/
theorem claim_C5_save_never_throws (index : Nat) (result : TestResult)
    (f : FileState) :
    (saveTestResult index result f).1 = true ∧
    (saveTestResult index result f).2.1 ≤ maxRetries ∧
    (f = .corrupt →
      saveTestResult index result f =
        (true, maxRetries, .valid [⟨index, result⟩])) := by
  cases f with
  | missing => exact ⟨rfl, show (1 : Nat) ≤ 5 by omega, fun h => nomatch h⟩
  | corrupt => exact ⟨rfl, show (5 : Nat) ≤ 5 by omega, fun _ => rfl⟩
  | notArray => exact ⟨rfl, show (1 : Nat) ≤ 5 by omega, fun h => nomatch h⟩
  | valid rs => exact ⟨rfl, show (1 : Nat) ≤ 5 by omega, fun h => nomatch h⟩

/-- Concrete instantiation of `claim_C5_save_never_throws` on a corrupt
backing file. -/
theorem claim_C5_save_never_throws_witness :
    saveTestResult 3 resExNotRun .corrupt =
      (true, maxRetries, .valid [⟨3, resExNotRun⟩]) :=
  (claim_C5_save_never_throws 3 resExNotRun .corrupt).2.2 rfl

/-- A writer's control point inside `saveTestResult` when its attempts
interleave with another writer's: about to (re)read the shared file at a
given attempt, about to rename its upserted snapshot over it, or returned. -/
inductive WriterState
  | toRead (attempt : Nat)
  | toWrite (attempt : Nat) (snapshot : List StoreRecord)
  | done (ok : Bool)
deriving DecidableEq, Repr

/-- One atomic action of a writer running `saveTestResult` concurrently: the
read (with its parse) and the atomic rename are the two actions that touch
the shared file.  A failed parse retries while attempts remain and resets
the snapshot to `[]` on the last attempt, exactly as in the quiescent
`saveLoop`. -/
def writerStep (index : Nat) (result : TestResult) :
    WriterState → FileState → WriterState × FileState
  | .toRead attempt, f =>
    match readSnapshot f with
    | .ok allResults => (.toWrite attempt allResults, f)
    | .error _ =>
      if attempt + 1 < maxRetries then (.toRead (attempt + 1), f)
      else (.toWrite attempt [], f)
  | .toWrite _ snapshot, _ =>
    (.done true, .valid (upsertRecord index result snapshot))
  | .done ok, f => (.done ok, f)

/-- The shared file together with the control points of two concurrent
writers. -/
structure ConcurrentState where
  w1 : WriterState
  w2 : WriterState
  file : FileState
deriving DecidableEq, Repr

/-- Run an interleaving of the two writers: `true` steps writer 1 (submitting
`res1` for `idx1`), `false` steps writer 2 (submitting `res2` for `idx2`). -/
def runSchedule (idx1 : Nat) (res1 : TestResult) (idx2 : Nat)
    (res2 : TestResult) : List Bool → ConcurrentState → ConcurrentState
  | [], s => s
  | b :: rest, s =>
    if b then
      let p := writerStep idx1 res1 s.w1 s.file
      runSchedule idx1 res1 idx2 res2 rest ⟨p.1, s.w2, p.2⟩
    else
      let p := writerStep idx2 res2 s.w2 s.file
      runSchedule idx1 res1 idx2 res2 rest ⟨s.w1, p.1, p.2⟩

/-- `loadAll()`: the records a subsequent reader parses out of the shared
file (unreadable or missing contents yield the empty list, as in the
reporter's loader). -/
def loadAll : FileState → List StoreRecord
  | .valid rs => rs
  | _ => []

/-- A sample saved outcome with status PASS. -/
def resExPass : TestResult :=
  ⟨"q", "h1", "sk", "cc", "cn", "sc", "sn", "PASS",
   some "", some 6, some 6, some "", some 1, some "Top 1-5"⟩

/-- An interleaving in which the two writers alternate their five parse
retries against an initially corrupt file and then rename one after the
other. -/
def schedInterleaved : List Bool :=
  [true, false, true, false, true, false, true, false, true, false,
   true, false]

/-- Counterexample to claim C7 as stated: writers for the distinct indices 0
and 1 submit concurrently against an initially corrupt backing file; their
retries interleave (each exhausts its five read attempts), then writer 1
renames its reset snapshot and writer 2's later rename replaces it.  Both
calls return normally, yet the store afterwards holds only writer 2's
record: writer 1's record for index 0 is gone, clobbered by a write for the
different index 1 — the retry loop retries only on parse errors, never on a
stale snapshot. -/
theorem claim_C7_counterexample :
    (runSchedule 0 resExPass 1 resExNotRun schedInterleaved
        ⟨.toRead 0, .toRead 0, .corrupt⟩).w1 = .done true ∧
    (runSchedule 0 resExPass 1 resExNotRun schedInterleaved
        ⟨.toRead 0, .toRead 0, .corrupt⟩).w2 = .done true ∧
    loadAll (runSchedule 0 resExPass 1 resExNotRun schedInterleaved
        ⟨.toRead 0, .toRead 0, .corrupt⟩).file = [⟨1, resExNotRun⟩] ∧
    (⟨0, resExPass⟩ : StoreRecord) ∉
      loadAll (runSchedule 0 resExPass 1 resExNotRun schedInterleaved
        ⟨.toRead 0, .toRead 0, .corrupt⟩).file := by
  decide

theorem self_mem_upsertRecord (index : Nat) (result : TestResult)
    (rs : List StoreRecord) :
    (⟨index, result⟩ : StoreRecord) ∈ upsertRecord index result rs := by
  induction rs with
  | nil => simp [upsertRecord]
  | cons r rs ih =>
    unfold upsertRecord
    by_cases h : r.testIndex = index
    · rw [if_pos h]
      exact List.mem_cons_self _ _
    · rw [if_neg h]
      exact List.mem_cons_of_mem _ ih

theorem mem_upsertRecord_of_ne (index : Nat) (result : TestResult)
    {r : StoreRecord} (hne : r.testIndex ≠ index) :
    ∀ {rs : List StoreRecord}, r ∈ rs → r ∈ upsertRecord index result rs := by
  intro rs
  induction rs with
  | nil =>
    intro h
    cases h
  | cons a rs ih =>
    intro hmem
    unfold upsertRecord
    by_cases h : a.testIndex = index
    · rw [if_pos h]
      rcases List.mem_cons.mp hmem with rfl | hr
      · exact absurd h hne
      · exact List.mem_cons_of_mem _ hr
    · rw [if_neg h]
      rcases List.mem_cons.mp hmem with rfl | hr
      · exact List.mem_cons_self _ _
      · exact List.mem_cons_of_mem _ (ih hr)

/-- Claim C7 amended: when the two writers' read-modify-write cycles do not
overlap (each writer's read happens after the other's rename — here the
serialized schedule: writer 1 reads and writes, then writer 2 reads and
writes), both submitted records are present in the store after both calls
return, and every record for a third index is preserved: a record is then
only ever replaced by a later write for the same index.  Under overlapping
cycles this fails (`claim_C7_counterexample`): the later rename erases the
other writer's record even for a different index, because the retry loop
retries only on errors, not on stale snapshots. -/
theorem claim_C7_serialized (idx1 idx2 : Nat) (res1 res2 : TestResult)
    (rs : List StoreRecord) (hne : idx1 ≠ idx2) :
    (runSchedule idx1 res1 idx2 res2 [true, true, false, false]
        ⟨.toRead 0, .toRead 0, .valid rs⟩).w1 = .done true ∧
    (runSchedule idx1 res1 idx2 res2 [true, true, false, false]
        ⟨.toRead 0, .toRead 0, .valid rs⟩).w2 = .done true ∧
    (⟨idx1, res1⟩ : StoreRecord) ∈
      loadAll (runSchedule idx1 res1 idx2 res2 [true, true, false, false]
        ⟨.toRead 0, .toRead 0, .valid rs⟩).file ∧
    (⟨idx2, res2⟩ : StoreRecord) ∈
      loadAll (runSchedule idx1 res1 idx2 res2 [true, true, false, false]
        ⟨.toRead 0, .toRead 0, .valid rs⟩).file ∧
    ∀ r ∈ rs, r.testIndex ≠ idx1 → r.testIndex ≠ idx2 →
      r ∈ loadAll (runSchedule idx1 res1 idx2 res2 [true, true, false, false]
        ⟨.toRead 0, .toRead 0, .valid rs⟩).file := by
  have hrun : runSchedule idx1 res1 idx2 res2 [true, true, false, false]
      ⟨.toRead 0, .toRead 0, .valid rs⟩ =
      ⟨.done true, .done true,
        .valid (upsertRecord idx2 res2 (upsertRecord idx1 res1 rs))⟩ := rfl
  rw [hrun]
  refine ⟨rfl, rfl, ?_, ?_, ?_⟩
  · exact mem_upsertRecord_of_ne idx2 res2 hne
      (self_mem_upsertRecord idx1 res1 rs)
  · exact self_mem_upsertRecord idx2 res2 _
  · intro r hr h1 h2
    exact mem_upsertRecord_of_ne idx2 res2 h2
      (mem_upsertRecord_of_ne idx1 res1 h1 hr)

/-- Concrete instantiation of `claim_C7_serialized`: serialized submits for
indices 0 and 1 over a store holding a record for index 7 keep all three
records. -/
theorem claim_C7_serialized_witness :
    (⟨0, resExPass⟩ : StoreRecord) ∈
      loadAll (runSchedule 0 resExPass 1 resExNotRun [true, true, false, false]
        ⟨.toRead 0, .toRead 0, .valid [⟨7, resExNotRun⟩]⟩).file ∧
    (⟨1, resExNotRun⟩ : StoreRecord) ∈
      loadAll (runSchedule 0 resExPass 1 resExNotRun [true, true, false, false]
        ⟨.toRead 0, .toRead 0, .valid [⟨7, resExNotRun⟩]⟩).file ∧
    (⟨7, resExNotRun⟩ : StoreRecord) ∈
      loadAll (runSchedule 0 resExPass 1 resExNotRun [true, true, false, false]
        ⟨.toRead 0, .toRead 0, .valid [⟨7, resExNotRun⟩]⟩).file :=
  have h := claim_C7_serialized 0 1 resExPass resExNotRun
    [⟨7, resExNotRun⟩] (by decide)
  ⟨h.2.2.1, h.2.2.2.1,
   h.2.2.2.2 ⟨7, resExNotRun⟩ (by simp) (by decide) (by decide)⟩

/-- JS `file.startsWith(testId)`: character-level prefix test. -/
def startsWithJS (pre s : String) : Bool := pre.data.isPrefixOf s.data

/-- JS `String.prototype.padStart(n, c)`: left-pad with `c` up to length
`n`; a string already at least that long is returned unchanged. -/
def padStart (s : String) (n : Nat) (c : Char) : String :=
  if n ≤ s.length then s
  else String.mk (List.replicate (n - s.length) c) ++ s

/-- The test id of the test at 0-based `index`:
`TC${String(index + 1).padStart(3, '0')}` (fuzzy-sku-search.spec.ts
line 189). -/
def testIdOf (index : Nat) : String :=
  "TC" ++ padStart (natSerialize (index + 1)) 3 '0'

/-- Step-screenshot filename
`${testId}_step${paddedStep}_${stepName}.png` (ScreenshotHelper.capture,
with `paddedStep = String(stepCounter).padStart(2, '0')`). -/
def screenshotFilename (testId : String) (stepCounter : Nat)
    (stepName : String) : String :=
  testId ++ "_step" ++ padStart (natSerialize stepCounter) 2 '0' ++ "_" ++
    stepName ++ ".png"

/-- The purge at the top of each test (fuzzy-sku-search.spec.ts lines
191-206): unlink every file of the screenshot directory whose name starts
with the test id; the value is the remaining directory contents. -/
def deleteOldScreenshots (testId : String) (files : List String) :
    List String :=
  files.filter (fun file => !(startsWithJS testId file))

/-- The files written by the capture calls of one test run: the helper's
step counter increments on every attempt, and a successful attempt (flag
`true`) writes its file, while a failed page screenshot writes nothing and
returns null. -/
def captureNames (testId : String) (steps : List (String × Bool)) :
    List String :=
  steps.enum.filterMap (fun p =>
    if p.2.2 then some (screenshotFilename testId (p.1 + 1) p.2.1)
    else none)

/-- The screenshot directory after one rerun of the test for `testId`: the
old screenshots of that id are purged before any capture, then the new
captures are written. -/
def runTestScreenshots (testId : String) (files : List String)
    (steps : List (String × Bool)) : List String :=
  deleteOldScreenshots testId files ++ captureNames testId steps

theorem string_data_append (s t : String) :
    (s ++ t).data = s.data ++ t.data := rfl

theorem startsWithJS_of_data (pre f : String) (rest : List Char)
    (h : f.data = pre.data ++ rest) : startsWithJS pre f = true := by
  unfold startsWithJS
  rw [h]
  rw [List.isPrefixOf_iff_prefix]
  exact List.prefix_append _ _

theorem screenshotFilename_startsWith (testId : String) (k : Nat)
    (n : String) :
    startsWithJS testId (screenshotFilename testId k n) = true := by
  apply startsWithJS_of_data testId _
    ("_step".data ++ (padStart (natSerialize k) 2 '0').data ++ "_".data ++
      n.data ++ ".png".data)
  simp [screenshotFilename, string_data_append, List.append_assoc]

/-- Claim C9: on rerun of the test with a given id, every previously stored
step-screenshot file for that test (files whose name starts with the test
id) is deleted before any new screenshot is captured: afterwards a file is
in the directory iff it is an unrelated old file (not carrying the id
prefix) or one of the new captures; in particular an old file with the id
prefix survives only if recaptured — assets for an index are replaced,
never appended to — and every new capture carries the id prefix. -/
theorem claim_C9_screenshot_replacement (testId : String)
    (files : List String) (steps : List (String × Bool)) :
    (∀ f, f ∈ runTestScreenshots testId files steps ↔
      ((f ∈ files ∧ startsWithJS testId f = false) ∨
        f ∈ captureNames testId steps)) ∧
    (∀ f ∈ files, startsWithJS testId f = true →
      (f ∈ runTestScreenshots testId files steps ↔
        f ∈ captureNames testId steps)) ∧
    (∀ f ∈ captureNames testId steps, startsWithJS testId f = true) := by
  have hmem : ∀ f, f ∈ runTestScreenshots testId files steps ↔
      ((f ∈ files ∧ startsWithJS testId f = false) ∨
        f ∈ captureNames testId steps) := by
    intro f
    unfold runTestScreenshots deleteOldScreenshots
    rw [List.mem_append, List.mem_filter]
    simp only [Bool.not_eq_eq_eq_not, Bool.not_true]
  refine ⟨hmem, ?_, ?_⟩
  · intro f _ hpre
    rw [hmem f]
    constructor
    · intro h
      rcases h with ⟨_, hfalse⟩ | h
      · rw [hpre] at hfalse
        cases hfalse
      · exact h
    · intro h
      exact Or.inr h
  · intro f hcap
    unfold captureNames at hcap
    rcases List.mem_filterMap.mp hcap with ⟨p, _, hp⟩
    by_cases hb : p.2.2 = true
    · rw [if_pos hb] at hp
      cases hp
      exact screenshotFilename_startsWith testId _ _
    · rw [if_neg hb] at hp
      cases hp

/-- Concrete instantiation of `claim_C9_screenshot_replacement`: an old
screenshot of test TC001 is gone after a rerun that captures one new step,
while an unrelated file stays. -/
theorem claim_C9_screenshot_replacement_witness :
    ("TC001_step01_a.png" ∈
      runTestScreenshots "TC001" ["TC001_step01_a.png", "keep.txt"]
        [("b", true)] ↔
      "TC001_step01_a.png" ∈ captureNames "TC001" [("b", true)]) ∧
    startsWithJS "TC001" "TC001_step01_a.png" = true :=
  ⟨(claim_C9_screenshot_replacement "TC001"
      ["TC001_step01_a.png", "keep.txt"] [("b", true)]).2.1
      "TC001_step01_a.png" (by simp) (by decide),
   by decide⟩

/-- A row handed to the HTML report generator (the generator's own
`TestResult` interface plus the `step_screenshots` array added by
`resultsForDeploy` in custom-reporter.ts). -/
structure ReportRow where
  test_number : Nat
  status : String
  aitehinmei : String
  hinban : String
  skname1 : String
  colorcd : String
  colornm : String
  sizecd : String
  sizename : String
  found_count : Option Int
  total_count : Option Int
  error_message : Option String
  result_position : Option Int
  result_rank_range : Option String
  step_screenshots : List String
deriving DecidableEq, Repr

/-- The apostrophe character. -/
def apos : Char := Char.ofNat 39

/-- Per-character action of `escapeHtml`'s replacement map
(html-report-generator.ts lines 1169-1178). -/
def escapeChar (c : Char) : List Char :=
  if c = '&' then "&amp;".data
  else if c = '<' then "&lt;".data
  else if c = '>' then "&gt;".data
  else if c = '"' then "&quot;".data
  else if c = apos then "&#039;".data
  else [c]

/-- The global per-character replacement underlying
`text.replace(/[&<>"']/g, m => map[m])`. -/
def escapeList : List Char → List Char
  | [] => []
  | c :: cs => escapeChar c ++ escapeList cs

/-- `HTMLReportGenerator.escapeHtml` (html-report-generator.ts lines
1169-1178). -/
def escapeHtml (text : String) : String := String.mk (escapeList text.data)

/-- JS truthiness of an optional number (NaN aside): `undefined` and `0`
are falsy. -/
def optIntTruthy : Option Int → Bool
  | some n => n != 0
  | none => false

/-- JS truthiness of an optional string: `undefined` and the empty string
are falsy. -/
def optStrTruthy : Option String → Bool
  | some s => s != ""
  | none => false

/-- JS `v && v > 0` for an optional number. -/
def optIntGtZero : Option Int → Bool
  | some n => decide (0 < n)
  | none => false

/-- JS `v <= k` for an optional number (`undefined <= k` is false). -/
def optLe (v : Option Int) (k : Int) : Bool :=
  match v with
  | some n => decide (n ≤ k)
  | none => false

/-- JS template interpolation of an optional number (`undefined` prints as
the text "undefined"). -/
def optIntStr : Option Int → String
  | some n => intSerialize n
  | none => "undefined"

/-- JS template interpolation of an optional string. -/
def optStrStr : Option String → String
  | some s => s
  | none => "undefined"

/-- JS `v || d` for an optional number: the default for `undefined` or 0. -/
def numOr (v : Option Int) (d : Int) : Int :=
  match v with
  | some n => if n = 0 then d else n
  | none => d

/-- Replace the first occurrence of `c` (JS `String.prototype.replace` with
a plain-string pattern replaces only the first match). -/
def replaceFirstChar (c d : Char) : List Char → List Char
  | [] => []
  | x :: xs => if x = c then d :: xs else x :: replaceFirstChar c d xs

/-- `test.status.toLowerCase().replace('_', '-')` (line 1029). -/
def statusClassOf (status : String) : String :=
  String.mk (replaceFirstChar '_' '-' (status.data.map Char.toLower))

/-- `path.split('/').pop()`: the filename after the last slash. -/
def afterLastSlash (l : List Char) : List Char :=
  (l.reverse.takeWhile (fun c => !(c == '/'))).reverse

/-- The capture group of `filename.match(/step\d+_(.+)\.png$/)`: from the
leftmost position at which `step` is followed by at least one digit and an
underscore, everything between that underscore and the terminal `.png`
(at least one character); `none` when the expression does not match. -/
def stepCapture : List Char → Option (List Char)
  | [] => none
  | c :: cs =>
    match
      (if "step".data.isPrefixOf (c :: cs) then
        let rest := (c :: cs).drop 4
        let ds := rest.takeWhile Char.isDigit
        if ds.isEmpty then none
        else
          match rest.drop ds.length with
          | '_' :: tail =>
            if ".png".data.isSuffixOf tail = true ∧ 4 < tail.length then
              some (tail.take (tail.length - 4))
            else none
          | _ => none
      else none) with
    | some g => some g
    | none => stepCapture cs

/-- The first `replace` applied to the capture (the global dash pattern):
every dash becomes a space. -/
def dashesToSpaces (l : List Char) : List Char :=
  l.map (fun c => if c = '-' then ' ' else c)

/-- The second `replace` applied to the capture (the anchored pattern of
digits followed by a dash): strip one leading run of digits followed by a
dash, when present. -/
def stripLeadingNumDash (l : List Char) : List Char :=
  let ds := l.takeWhile Char.isDigit
  if ds.isEmpty then l
  else
    match l.drop ds.length with
    | '-' :: tail => tail
    | _ => l

/-- `stepName.charAt(0).toUpperCase() + stepName.slice(1)`. -/
def capitalizeFirst : List Char → List Char
  | [] => []
  | c :: cs => c.toUpper :: cs

/-- The step label of one screenshot row (html-report-generator.ts lines
986-992). -/
def stepLabelOf (path : String) (idx : Nat) : String :=
  let filename := afterLastSlash path.data
  let stepName :=
    match stepCapture filename with
    | some g => stripLeadingNumDash (dashesToSpaces g)
    | none => ("Step " ++ natSerialize (idx + 1)).data
  String.mk (capitalizeFirst stepName)

/-- `HTMLReportGenerator.generateScreenshotsHTML` (html-report-generator.ts
lines 975-1026). -/
def generateScreenshotsHTML (test : ReportRow) : String :=
  if test.step_screenshots.isEmpty then
    "\n          <div class=\"screenshot-section\">\n            <div class=\"no-screenshot\">No screenshots available for this test case</div>\n          </div>\n      "
  else
    let screenshotsHTML := String.join (test.step_screenshots.enum.map
      (fun p =>
        let stepLabel := stepLabelOf p.2 p.1
        "\n        <div class=\"screenshot-row\">\n          <div class=\"step-label\">\n            <span class=\"step-number\">📍 Step " ++
          padStart (natSerialize (p.1 + 1)) 2 '0' ++
          "</span>\n            <span class=\"step-name\">・" ++ stepLabel ++
          "</span>\n          </div>\n          <div class=\"screenshot-container\">\n            <div class=\"screenshot-wrapper\">\n              <img \n                src=\"" ++
          p.2 ++
          "\" \n                alt=\"Test " ++
          natSerialize test.test_number ++ " - " ++ stepLabel ++
          "\"\n                onclick=\"openScreenshot(this.src)\"\n                loading=\"lazy\"\n              />\n            </div>\n          </div>\n        </div>\n      "))
    "\n          <div class=\"screenshot-section\">\n            <h4>📸 Step-by-Step</h4>\n            <div class=\"steps-container\">\n              " ++
      screenshotsHTML ++
      "\n            </div>\n          </div>\n    "

/-- `HTMLReportGenerator.generateTestCaseHTML` (html-report-generator.ts
lines 1028-1167): the section rendered for one merged row. -/
def generateTestCaseHTML (test : ReportRow) : String :=
  let statusClass := statusClassOf test.status
  let statusText :=
    if test.status == "PASS" then "✅ PASS"
    else if test.status == "FAIL" then "❌ FAIL"
    else "⏭️ NOT RUN"
  let matchResultClass :=
    if test.found_count == test.total_count then "success"
    else if optIntGtZero test.found_count then "partial"
    else "failed"
  "\n      <div class=\"test-case\" data-status=\"" ++ test.status ++
  "\">\n        <div class=\"test-case-header " ++ statusClass ++
  "\" onclick=\"toggleTestCase(" ++ natSerialize test.test_number ++
  ")\">\n          <div class=\"test-case-title\">\n            <h3>TC" ++
  padStart (natSerialize test.test_number) 3 '0' ++ ": " ++
  escapeHtml test.aitehinmei ++
  "</h3>\n          </div>\n          <div class=\"test-case-status\">\n            <span class=\"status-badge " ++
  statusClass ++ "\">" ++ statusText ++ "</span>\n            " ++
  (if test.found_count.isSome then
    "\n              <span class=\"status-badge\" style=\"background: #6c757d;\">\n                " ++
      optIntStr test.found_count ++ "/" ++ optIntStr test.total_count ++
      " fields\n              </span>\n            "
  else "") ++
  "\n            <span id=\"icon-" ++ natSerialize test.test_number ++
  "\" class=\"toggle-icon\">▶</span>\n          </div>\n        </div>\n        \n        <div id=\"test-body-" ++
  natSerialize test.test_number ++
  "\" class=\"test-case-body\">\n          <div class=\"test-details\">\n            <!-- Input Query Section -->\n            <div class=\"query-section\">\n              <h4>📝 Input Query (Aitehinmei)</h4>\n              <p>" ++
  escapeHtml test.aitehinmei ++
  "</p>\n            </div>\n            \n            <!-- Expected Values Table -->\n            <table class=\"expected-values-table\">\n              <caption>🎯 Expected Values (6 Fields)</caption>\n              <thead>\n                <tr>\n                  <th>Hinban</th>\n                  <th>Skname1</th>\n                  <th>Colorcd</th>\n                  <th>Colornm</th>\n                  <th>Sizecd</th>\n                  <th>Sizename</th>\n                </tr>\n              </thead>\n              <tbody>\n                <tr>\n                  <td>" ++
  escapeHtml test.hinban ++ "</td>\n                  <td>" ++
  escapeHtml test.skname1 ++ "</td>\n                  <td>" ++
  escapeHtml test.colorcd ++ "</td>\n                  <td>" ++
  escapeHtml test.colornm ++ "</td>\n                  <td>" ++
  escapeHtml test.sizecd ++ "</td>\n                  <td>" ++
  escapeHtml test.sizename ++
  "</td>\n                </tr>\n              </tbody>\n            </table>\n            \n            <!-- Match Result Section -->\n            <div class=\"match-result-section " ++
  matchResultClass ++
  "\">\n              <h4>📊 Match Result</h4>\n              <div class=\"result-value\">" ++
  intSerialize (numOr test.found_count 0) ++ "/" ++
  intSerialize (numOr test.total_count 6) ++
  "</div>\n              <div class=\"result-text\">\n                " ++
  (if test.found_count == test.total_count then
    "✅ All fields matched successfully!"
  else if optIntGtZero test.found_count then
    "⚠️ Partial match - some fields found"
  else "❌ No matching fields found") ++
  "\n              </div>\n            </div>\n            \n            " ++
  (if optIntTruthy test.result_position &&
      optStrTruthy test.result_rank_range then
    "\n            <div class=\"match-result-section " ++
      (if optLe test.result_position 5 then "success"
      else if optLe test.result_position 20 then "partial"
      else "failed") ++
      "\">\n              <h4>🎯 Result Position</h4>\n              <div class=\"result-value\">#" ++
      optIntStr test.result_position ++
      "</div>\n              <div class=\"result-text\">\n                " ++
      optStrStr test.result_rank_range ++
      "\n              </div>\n            </div>\n            "
  else if test.result_rank_range == some "Not Found" then
    "\n            <div class=\"match-result-section failed\">\n              <h4>🎯 Result Position</h4>\n              <div class=\"result-text\">\n                ❌ Expected result not found in search results\n              </div>\n            </div>\n            "
  else "") ++
  "\n            \n            " ++
  (match test.error_message with
  | some e =>
    if e == "" then ""
    else
      "\n            <div class=\"detail-group error\">\n              <h4>❌ Error Details</h4>\n              <p>" ++
        escapeHtml e ++ "</p>\n            </div>\n            "
  | none => "") ++
  "\n          </div>\n          \n          " ++
  generateScreenshotsHTML test ++ "\n        </div>\n      </div>\n    "

/-- The characters through which embedded text could open markup in the
document. -/
def markupChar (c : Char) : Bool :=
  c == '<' || c == '>' || c == '"' || c == apos

/-- Number of markup-capable characters in a string. -/
def markupCount (s : String) : Nat := s.data.countP markupChar

theorem escapeChar_no_markup (c d : Char) (hd : d ∈ escapeChar c) :
    markupChar d = false := by
  unfold escapeChar at hd
  split_ifs at hd with h1 h2 h3 h4 h5
  · exact (by decide : ∀ x ∈ "&amp;".data, markupChar x = false) d hd
  · exact (by decide : ∀ x ∈ "&lt;".data, markupChar x = false) d hd
  · exact (by decide : ∀ x ∈ "&gt;".data, markupChar x = false) d hd
  · exact (by decide : ∀ x ∈ "&quot;".data, markupChar x = false) d hd
  · exact (by decide : ∀ x ∈ "&#039;".data, markupChar x = false) d hd
  · rw [List.mem_singleton] at hd
    subst hd
    simp only [markupChar, Bool.or_eq_false_iff, beq_eq_false_iff_ne, ne_eq]
    exact ⟨⟨⟨h2, h3⟩, h4⟩, h5⟩

theorem escapeList_no_markup (l : List Char) :
    ∀ d ∈ escapeList l, markupChar d = false := by
  induction l with
  | nil =>
    intro d hd
    cases hd
  | cons c cs ih =>
    intro d hd
    unfold escapeList at hd
    rcases List.mem_append.mp hd with h | h
    · exact escapeChar_no_markup c d h
    · exact ih d h

theorem markupCount_escapeHtml (s : String) :
    markupCount (escapeHtml s) = 0 := by
  unfold markupCount escapeHtml
  rw [show (String.mk (escapeList s.data)).data = escapeList s.data from rfl]
  rw [List.countP_eq_zero]
  intro a ha
  simp [escapeList_no_markup s.data a ha]

theorem markupCount_append (s t : String) :
    markupCount (s ++ t) = markupCount s + markupCount t := by
  unfold markupCount
  rw [string_data_append, List.countP_append]

/-- A report row with the two free-text fields replaced: the query text and
the error message (the fields claim C8 is about). -/
def setFreeText (t : ReportRow) (q e : String) : ReportRow :=
  { t with aitehinmei := q, error_message := some e }

/-- Claim C8: every free-text field of every rendered row — the query text
and the error message — is HTML-escaped before being embedded: `escapeHtml`
replaces each of the characters & < > " ' by its entity, its output
contains none of the markup-opening characters < > " ', and the number of
markup-capable characters in a rendered section is independent of the query
and error text (the error's presence toggle held fixed) — so row content
cannot inject markup into the document. -/
theorem claim_C8_escaping :
    (∀ s : String, ∀ d ∈ (escapeHtml s).data, markupChar d = false) ∧
    (escapeHtml "&" = "&amp;" ∧ escapeHtml "<" = "&lt;" ∧
      escapeHtml ">" = "&gt;" ∧ escapeHtml "\"" = "&quot;" ∧
      escapeHtml (String.mk [apos]) = "&#039;") ∧
    (∀ (t : ReportRow) (q₁ q₂ e₁ e₂ : String), (e₁ = "" ↔ e₂ = "") →
      markupCount (generateTestCaseHTML (setFreeText t q₁ e₁)) =
        markupCount (generateTestCaseHTML (setFreeText t q₂ e₂))) := by
  refine ⟨?_, ⟨by decide, by decide, by decide, by decide, by decide⟩, ?_⟩
  · intro s d hd
    exact escapeList_no_markup s.data d hd
  · intro t q₁ q₂ e₁ e₂ he
    unfold generateTestCaseHTML setFreeText generateScreenshotsHTML
    dsimp only
    by_cases h1 : e₁ = ""
    · have h2 : e₂ = "" := he.mp h1
      subst h1
      subst h2
      simp [markupCount_append, markupCount_escapeHtml]
    · have h2 : ¬ e₂ = "" := fun hh => h1 (he.mpr hh)
      simp [markupCount_append, markupCount_escapeHtml, h1, h2]

/-- A sample report row with derived fields populated. -/
def reportRowEx : ReportRow :=
  ⟨2, "FAIL", "query", "h", "s1", "c1", "c2", "z1", "z2",
   some 3, some 6, some "missing fields", some 2, some "Top 1-5",
   ["screenshots/TC002_step01_a.png"]⟩

/-- Concrete instantiation of `claim_C8_escaping`: an injection attempt in
the query and error fields leaves the rendered section's markup-character
count unchanged, and its escape introduces no markup characters. -/
theorem claim_C8_escaping_witness :
    (∀ d ∈ (escapeHtml "<script>").data, markupChar d = false) ∧
    markupCount (generateTestCaseHTML
        (setFreeText reportRowEx "<script>alert(1)</script>" "a<b")) =
      markupCount (generateTestCaseHTML (setFreeText reportRowEx "safe" "x")) :=
  ⟨claim_C8_escaping.1 "<script>",
   claim_C8_escaping.2.2 reportRowEx "<script>alert(1)</script>" "safe"
     "a<b" "x" (by decide)⟩

end FuzzySku
